import Mathlib

/-!
Shallow embedding of the review-analyzer core: the local keyword-heuristic
sentiment scorer (`analyzeSentiment` in `src/app.js`) and the business-action
resolver (`determineBusinessAction` in the variant script). Scores are modelled
with exact rational arithmetic; strings are Lean strings processed as character
lists, mirroring the JavaScript operations (`split(/\s+/)`, `replace(/[^\w\s]/g)`,
`toLowerCase`, `includes`, `match` counting).
-/

/-- Sentiment label: one of exactly three variants, as in the source. -/
inductive Label where
  | POSITIVE
  | NEGATIVE
  | NEUTRAL
deriving DecidableEq, Repr

/-- Output of the scorer: a label together with a confidence value. -/
structure Classification where
  label : Label
  confidence : ℚ
deriving DecidableEq, Repr

/-- The three running scores of `analyzeSentiment` (src/app.js lines 164-166). -/
structure ScoreState where
  positiveScore : ℚ
  negativeScore : ℚ
  neutralScore : ℚ
deriving DecidableEq, Repr

/-- Positive keyword lexicon (src/app.js lines 120-133). -/
def positiveKeywords : List String :=
  ["excellent", "outstanding", "amazing", "wonderful", "fantastic", "superb",
   "perfect", "brilliant", "exceptional", "phenomenal", "awesome", "magnificent",
   "love", "adore", "favorite", "best", "great", "good",
   "nice", "pleased", "satisfied", "happy", "enjoy", "like", "decent",
   "recommend", "worth", "valuable", "helpful", "useful", "effective",
   "quality", "durable", "reliable", "efficient", "fast", "quick", "easy",
   "comfortable", "beautiful", "stylish", "attractive", "well-made"]

/-- Negative keyword lexicon (src/app.js lines 135-147). -/
def negativeKeywords : List String :=
  ["terrible", "horrible", "awful", "worst", "disgusting", "disappointing",
   "hate", "regret", "waste", "rubbish", "garbage", "useless", "broken",
   "bad", "poor", "mediocre", "average", "okay", "so-so", "unhappy",
   "problem", "issue", "fault", "defect", "flaw", "disadvantage",
   "cheap", "flimsy", "slow", "difficult", "complicated", "uncomfortable",
   "expensive", "overpriced", "noisy", "heavy", "small", "big"]

/-- Neutral keyword lexicon (src/app.js lines 149-152). -/
def neutralKeywords : List String :=
  ["average", "standard", "normal", "regular", "typical", "ordinary",
   "adequate", "sufficient", "acceptable", "moderate", "fair", "reasonable"]

/-- Negation words (src/app.js line 155). -/
def negationWords : List String := ["not", "no", "never", "none", "nothing", "without"]

/-- Intensifier words (src/app.js line 158). -/
def intensifiers : List String := ["very", "really", "extremely", "absolutely", "totally"]

/-- ASCII lower-casing of a string, embedding `reviewText.toLowerCase()`. -/
def lowerString (s : String) : String := String.mk (s.data.map Char.toLower)

/-- One pass of JavaScript `split(/\s+/)`: pieces separated by maximal
whitespace runs, keeping a leading or trailing empty piece (so the empty
string splits into one empty piece, as `"".split(/\s+/)` yields `[""]`). -/
def jsSplitAux : Bool → List Char → List Char → List (List Char)
  | _, [], cur => [cur.reverse]
  | inWs, c :: cs, cur =>
    if c.isWhitespace then
      if inWs then jsSplitAux true cs []
      else cur.reverse :: jsSplitAux true cs []
    else jsSplitAux false cs (c :: cur)

/-- JavaScript `s.split(/\s+/)` (src/app.js line 161). -/
def jsSplitWs (s : String) : List String :=
  (jsSplitAux false s.data []).map (fun cs => String.mk cs)

/-- A `\w` regex character: ASCII letter, digit or underscore. -/
def isWordChar (c : Char) : Bool := c.isAlpha || c.isDigit || c == '_'

/-- JavaScript `word.replace(/[^\w\s]/g, '')` (src/app.js line 170): delete
every character that is neither a word character nor whitespace. -/
def cleanWord (w : String) : String :=
  String.mk (w.data.filter (fun c => isWordChar c || c.isWhitespace))

/-- Number of occurrences of a character, embedding `(s.match(/c/g) || []).length`. -/
def countChar (s : String) (c : Char) : Nat :=
  (s.data.filter (fun a => a == c)).length

/-- Whether the first list is an initial segment of the second. -/
def leadsWith : List Char → List Char → Bool
  | [], _ => true
  | _ :: _, [] => false
  | p :: ps, c :: cs => p == c && leadsWith ps cs

/-- Whether `pat` occurs as a contiguous substring, embedding `s.includes(pat)`. -/
def hasSub (pat : List Char) : List Char → Bool
  | [] => pat.isEmpty
  | c :: cs => leadsWith pat (c :: cs) || hasSub pat cs

/-- JavaScript `Math.abs` on rationals. -/
def ratAbs (x : ℚ) : ℚ := if x < 0 then -x else x

/-- Whether the previous raw token negates the current one
(src/app.js lines 174-177: `i > 0 && negationWords.includes(words[i-1])`). -/
def isNegatedBy : Option String → Bool
  | some p => decide (p ∈ negationWords)
  | none => false

/-- Intensity multiplier from the previous raw token
(src/app.js lines 179-183: 2 if it is an intensifier, else 1). -/
def intensityOf : Option String → ℚ
  | some p => if p ∈ intensifiers then 2 else 1
  | none => 1

/-- One iteration of the word loop of `analyzeSentiment`
(src/app.js lines 169-205): clean the token, look it up in the positive,
negative and neutral lexicons in that order, apply negation and the intensity
multiplier, and route the resulting word score by sign into the three
running scores. -/
def processWord (prev : Option String) (w : String) (s : ScoreState) : ScoreState :=
  let word := cleanWord w
  let base : ℚ :=
    if word ∈ positiveKeywords then (if isNegatedBy prev then -2 else 3)
    else if word ∈ negativeKeywords then (if isNegatedBy prev then 2 else -3)
    else if word ∈ neutralKeywords then 1/2
    else 0
  let wordScore := base * intensityOf prev
  if 0 < wordScore then { s with positiveScore := s.positiveScore + wordScore }
  else if wordScore < 0 then { s with negativeScore := s.negativeScore + ratAbs wordScore }
  else { s with neutralScore := s.neutralScore + 1/10 }

/-- The word loop, threading the previous raw token. -/
def processWords : Option String → List String → ScoreState → ScoreState
  | _, [], s => s
  | prev, w :: ws, s => processWords (some w) ws (processWord prev w s)

/-- Initial scores (src/app.js lines 164-166): neutral starts at the baseline 1. -/
def initState : ScoreState :=
  { positiveScore := 0, negativeScore := 0, neutralScore := 1 }

/-- Scores after the word loop over the lower-cased, whitespace-split text. -/
def tokenScores (reviewText : String) : ScoreState :=
  processWords none (jsSplitWs (lowerString reviewText)) initState

/-- Exclamation-mark emphasis (src/app.js lines 207-211): when the text has
more than one bang, add 2 to the positive score if it leads, then add 2 to the
negative score if it leads the (possibly updated) positive score. -/
def exclaimAdjust (exclCount : Nat) (s : ScoreState) : ScoreState :=
  if 1 < exclCount then
    let s1 :=
      if s.negativeScore < s.positiveScore then
        { s with positiveScore := s.positiveScore + 2 }
      else s
    if s1.positiveScore < s1.negativeScore then
      { s1 with negativeScore := s1.negativeScore + 2 }
    else s1
  else s

/-- Question-mark uncertainty (src/app.js lines 214-216). -/
def questionAdjust (questionCount : Nat) (s : ScoreState) : ScoreState :=
  if 0 < questionCount then { s with neutralScore := s.neutralScore + 1 } else s

/-- Contrast-word check (src/app.js line 219): substring search on the
lower-cased text. -/
def hasContrastWord (textLower : String) : Bool :=
  hasSub "but".data textLower.data || hasSub "however".data textLower.data ||
    hasSub "although".data textLower.data

/-- Contrast-word damping (src/app.js lines 219-221). -/
def contrastAdjust (textLower : String) (s : ScoreState) : ScoreState :=
  if hasContrastWord textLower then { s with neutralScore := s.neutralScore + 1 } else s

/-- The three scores as they stand when the final label and confidence are
computed: word loop, then exclamation, question and contrast adjustments. -/
def finalScores (reviewText : String) : ScoreState :=
  contrastAdjust (lowerString reviewText)
    (questionAdjust (countChar reviewText '?')
      (exclaimAdjust (countChar reviewText '!') (tokenScores reviewText)))

/-- `Math.max(positiveScore, negativeScore, neutralScore)` (src/app.js line 225). -/
def maxScoreOf (s : ScoreState) : ℚ :=
  max s.positiveScore (max s.negativeScore s.neutralScore)

/-- Final label decision (src/app.js lines 227-237): neutral wins on a tie with
the maximum or when the positive and negative scores are within 2 of each
other; otherwise positive wins when it attains the maximum; otherwise negative. -/
def labelOf (s : ScoreState) : Label :=
  if maxScoreOf s = s.neutralScore ∨ ratAbs (s.positiveScore - s.negativeScore) < 2 then
    Label.NEUTRAL
  else if s.positiveScore = maxScoreOf s then Label.POSITIVE
  else Label.NEGATIVE

/-- `totalScore` (src/app.js line 240). -/
def totalScoreOf (s : ScoreState) : ℚ :=
  s.positiveScore + s.negativeScore + s.neutralScore

/-- Confidence before clamping (src/app.js lines 241-248): the if/else-if
chain on the sentiment, which at that point equals `labelOf s`. -/
def rawConfidence (s : ScoreState) : ℚ :=
  if labelOf s = Label.NEUTRAL then 1/2 + s.neutralScore / totalScoreOf s * (3/10)
  else if labelOf s = Label.POSITIVE then 3/5 + s.positiveScore / totalScoreOf s * (3/10)
  else 3/5 + s.negativeScore / totalScoreOf s * (3/10)

/-- `Math.min(Math.max(confidence, 0.5), 0.95)` (src/app.js line 251). -/
def clampConfidence (c : ℚ) : ℚ := min (max c (1/2)) (19/20)

/-- The local sentiment scorer `analyzeSentiment` (src/app.js lines 115-258),
restricted to its pure core (the lexicons are fixed, the simulated delay and
the redundant lowercase `sentiment` string are dropped). -/
def analyzeSentiment (reviewText : String) : Classification :=
  let s := finalScores reviewText
  { label := labelOf s, confidence := clampConfidence (rawConfidence s) }

/-- Business action code of the resolver. -/
inductive ActionCode where
  | OFFER_COUPON
  | REQUEST_FEEDBACK
  | ASK_REFERRAL
deriving DecidableEq, Repr

/-- Decision record returned by `determineBusinessAction`. -/
structure Decision where
  actionCode : ActionCode
  uiMessage : String
  uiColor : String
  icon : String
deriving DecidableEq, Repr

/-- Normalization step of `determineBusinessAction` (variant script src/unnamed/part_001
lines 136-143): the default 0.5 is kept for any label other than POSITIVE and
NEGATIVE, so NEUTRAL ignores the confidence. -/
def normalizedScoreOf (confidence : ℚ) (label : Label) : ℚ :=
  match label with
  | Label.POSITIVE => confidence
  | Label.NEGATIVE => 1 - confidence
  | Label.NEUTRAL => 1/2

/-- `determineBusinessAction` (src/unnamed/part_001 lines 133-173): normalize the
classification to a goodness scalar, then the three-bucket decision table. -/
def determineBusinessAction (confidence : ℚ) (label : Label) : Decision :=
  let normalizedScore := normalizedScoreOf confidence label
  if normalizedScore ≤ 2/5 then
    { actionCode := ActionCode.OFFER_COUPON,
      uiMessage := "🚨 We\x27re sorry. Please accept this 50% discount coupon for your next purchase!",
      uiColor := "#ef4444",
      icon := "fa-ticket" }
  else if normalizedScore < 7/10 then
    { actionCode := ActionCode.REQUEST_FEEDBACK,
      uiMessage := "📝 Thank you for your feedback! Could you tell us more about how we can improve?",
      uiColor := "#6b7280",
      icon := "fa-clipboard-list" }
  else
    { actionCode := ActionCode.ASK_REFERRAL,
      uiMessage := "⭐ Glad you liked it! Refer a friend and earn rewards.",
      uiColor := "#3b82f6",
      icon := "fa-share-alt" }

/-! Helper lemmas -/

/-- Invariant maintained by the scorer: the positive and negative scores are
nonnegative and the neutral score is at least its baseline 1. -/
def StateInv (s : ScoreState) : Prop :=
  0 ≤ s.positiveScore ∧ 0 ≤ s.negativeScore ∧ 1 ≤ s.neutralScore

lemma ratAbs_nonneg (x : ℚ) : 0 ≤ ratAbs x := by
  unfold ratAbs; split <;> linarith

lemma intensity_pos (prev : Option String) : 0 < intensityOf prev := by
  cases prev with
  | none => norm_num [intensityOf]
  | some p =>
    simp only [intensityOf]
    split <;> norm_num

lemma initState_inv : StateInv initState := by
  unfold StateInv initState; norm_num

lemma routeScore_inv (v : ℚ) (s : ScoreState) (h : StateInv s) :
    StateInv (if 0 < v then { s with positiveScore := s.positiveScore + v }
      else if v < 0 then { s with negativeScore := s.negativeScore + ratAbs v }
      else { s with neutralScore := s.neutralScore + 1/10 }) := by
  obtain ⟨hp, hn, hu⟩ := h
  split
  next h0 =>
    have hv : (0:ℚ) ≤ s.positiveScore + v := by linarith
    exact ⟨hv, hn, hu⟩
  next h0 =>
    split
    next h1 =>
      have ha := ratAbs_nonneg v
      have hv : (0:ℚ) ≤ s.negativeScore + ratAbs v := by linarith
      exact ⟨hp, hv, hu⟩
    next h1 =>
      have hv : (1:ℚ) ≤ s.neutralScore + 1/10 := by linarith
      exact ⟨hp, hn, hv⟩

lemma processWord_inv (prev : Option String) (w : String) (s : ScoreState)
    (h : StateInv s) : StateInv (processWord prev w s) := by
  unfold processWord
  exact routeScore_inv _ s h

lemma processWords_inv (ws : List String) : ∀ (prev : Option String) (s : ScoreState),
    StateInv s → StateInv (processWords prev ws s) := by
  induction ws with
  | nil => intro prev s h; exact h
  | cons w ws ih => intro prev s h; exact ih (some w) _ (processWord_inv prev w s h)

lemma tokenScores_inv (text : String) : StateInv (tokenScores text) :=
  processWords_inv _ none initState initState_inv

/-- Case analysis of the exclamation adjustment: identity when the bang count
is at most 1; otherwise boost exactly the strictly leading score, and change
nothing when the two scores are equal. -/
lemma exclaimAdjust_cases (k : Nat) (s : ScoreState) :
    (k ≤ 1 → exclaimAdjust k s = s) ∧
    (1 < k → s.negativeScore < s.positiveScore →
      exclaimAdjust k s = { s with positiveScore := s.positiveScore + 2 }) ∧
    (1 < k → s.positiveScore < s.negativeScore →
      exclaimAdjust k s = { s with negativeScore := s.negativeScore + 2 }) ∧
    (1 < k → s.positiveScore = s.negativeScore → exclaimAdjust k s = s) := by
  refine ⟨fun hk => ?_, fun hk h => ?_, fun hk h => ?_, fun hk h => ?_⟩
  · simp [exclaimAdjust, show ¬1 < k by omega]
  · have h2 : ¬(s.positiveScore + 2 < s.negativeScore) := by linarith
    simp [exclaimAdjust, hk, h, h2]
  · have h2 : ¬(s.negativeScore < s.positiveScore) := by linarith
    simp [exclaimAdjust, hk, h, h2]
  · have h2 : ¬(s.negativeScore < s.positiveScore) := by rw [h]; exact lt_irrefl _
    have h3 : ¬(s.positiveScore < s.negativeScore) := by rw [h]; exact lt_irrefl _
    simp [exclaimAdjust, hk, h2, h3]

lemma exclaimAdjust_inv (k : Nat) (s : ScoreState) (h : StateInv s) :
    StateInv (exclaimAdjust k s) := by
  obtain ⟨hp, hn, hu⟩ := h
  obtain ⟨h1, h2, h3, h4⟩ := exclaimAdjust_cases k s
  by_cases hk : k ≤ 1
  · rw [h1 hk]; exact ⟨hp, hn, hu⟩
  · push_neg at hk
    rcases lt_trichotomy s.positiveScore s.negativeScore with hlt | heq | hgt
    · rw [h3 hk hlt]
      have hv : (0:ℚ) ≤ s.negativeScore + 2 := by linarith
      exact ⟨hp, hv, hu⟩
    · rw [h4 hk heq]; exact ⟨hp, hn, hu⟩
    · rw [h2 hk hgt]
      have hv : (0:ℚ) ≤ s.positiveScore + 2 := by linarith
      exact ⟨hv, hn, hu⟩

lemma questionAdjust_inv (q : Nat) (s : ScoreState) (h : StateInv s) :
    StateInv (questionAdjust q s) := by
  obtain ⟨hp, hn, hu⟩ := h
  unfold questionAdjust
  split
  · have hv : (1:ℚ) ≤ s.neutralScore + 1 := by linarith
    exact ⟨hp, hn, hv⟩
  · exact ⟨hp, hn, hu⟩

lemma contrastAdjust_inv (t : String) (s : ScoreState) (h : StateInv s) :
    StateInv (contrastAdjust t s) := by
  obtain ⟨hp, hn, hu⟩ := h
  unfold contrastAdjust
  split
  · have hv : (1:ℚ) ≤ s.neutralScore + 1 := by linarith
    exact ⟨hp, hn, hv⟩
  · exact ⟨hp, hn, hu⟩

lemma finalScores_inv (text : String) : StateInv (finalScores text) := by
  unfold finalScores
  exact contrastAdjust_inv _ _ (questionAdjust_inv _ _ (exclaimAdjust_inv _ _
    (tokenScores_inv text)))

lemma totalScoreOf_pos (s : ScoreState) (h : StateInv s) : 0 < totalScoreOf s := by
  obtain ⟨hp, hn, hu⟩ := h
  unfold totalScoreOf
  linarith

/-- The unclamped confidence lies strictly between 0.5 and 0.9 on any state
satisfying the scorer invariant. -/
lemma rawConfidence_bounds (s : ScoreState) (h : StateInv s) :
    1/2 < rawConfidence s ∧ rawConfidence s < 9/10 := by
  have htot := totalScoreOf_pos s h
  obtain ⟨hp, hn, hu⟩ := h
  unfold rawConfidence
  split
  · have h1 : (0:ℚ) < s.neutralScore / totalScoreOf s := div_pos (by linarith) htot
    have h2 : s.neutralScore / totalScoreOf s ≤ 1 := by
      rw [div_le_one htot]; unfold totalScoreOf; linarith
    have h3 : s.neutralScore / totalScoreOf s * (3/10) ≤ 1 * (3/10) :=
      mul_le_mul_of_nonneg_right h2 (by norm_num)
    have h4 : (0:ℚ) < s.neutralScore / totalScoreOf s * (3/10) := mul_pos h1 (by norm_num)
    constructor <;> linarith
  · split
    · have h1 : (0:ℚ) ≤ s.positiveScore / totalScoreOf s := div_nonneg hp htot.le
      have h2 : s.positiveScore / totalScoreOf s < 1 := by
        rw [div_lt_one htot]; unfold totalScoreOf; linarith
      have h3 : s.positiveScore / totalScoreOf s * (3/10) < 1 * (3/10) :=
        mul_lt_mul_of_pos_right h2 (by norm_num)
      have h4 : (0:ℚ) ≤ s.positiveScore / totalScoreOf s * (3/10) := mul_nonneg h1 (by norm_num)
      constructor <;> linarith
    · have h1 : (0:ℚ) ≤ s.negativeScore / totalScoreOf s := div_nonneg hn htot.le
      have h2 : s.negativeScore / totalScoreOf s < 1 := by
        rw [div_lt_one htot]; unfold totalScoreOf; linarith
      have h3 : s.negativeScore / totalScoreOf s * (3/10) < 1 * (3/10) :=
        mul_lt_mul_of_pos_right h2 (by norm_num)
      have h4 : (0:ℚ) ≤ s.negativeScore / totalScoreOf s * (3/10) := mul_nonneg h1 (by norm_num)
      constructor <;> linarith

lemma clampConfidence_mem (c : ℚ) :
    1/2 ≤ clampConfidence c ∧ clampConfidence c ≤ 19/20 := by
  unfold clampConfidence
  exact ⟨le_min (le_max_right c (1/2)) (by norm_num), min_le_right _ _⟩

lemma clampConfidence_eq_self (c : ℚ) (h1 : 1/2 ≤ c) (h2 : c ≤ 19/20) :
    clampConfidence c = c := by
  unfold clampConfidence
  rw [max_eq_left h1, min_eq_left h2]

lemma analyzeSentiment_label (t : String) :
    (analyzeSentiment t).label = labelOf (finalScores t) := rfl

lemma analyzeSentiment_confidence (t : String) :
    (analyzeSentiment t).confidence = clampConfidence (rawConfidence (finalScores t)) := rfl

/-- Concrete evaluation: the empty string yields a single empty token, which
is a zero hit, so only the neutral score moves (by 0.1 past its baseline 1). -/
lemma finalScores_empty :
    finalScores "" = { positiveScore := 0, negativeScore := 0, neutralScore := 11/10 } := by
  have h1 : tokenScores "" = { positiveScore := 0, negativeScore := 0, neutralScore := 11/10 } := by
    norm_num +decide [tokenScores, processWords, processWord, initState, jsSplitWs, jsSplitAux,
      lowerString, cleanWord, isWordChar, isNegatedBy, intensityOf, ratAbs,
      positiveKeywords, negativeKeywords, neutralKeywords, negationWords, intensifiers]
  have h2 : countChar "" '!' = 0 := by decide
  have h3 : countChar "" '?' = 0 := by decide
  have h4 : hasContrastWord (lowerString "") = false := by decide
  unfold finalScores
  rw [h1, h2, h3]
  norm_num [contrastAdjust, h4, questionAdjust, exclaimAdjust]

/-- Concrete evaluation: in "not good" the token "good" is a positive hit
negated by the preceding raw token "not", contributing 2 to the negative
score; "not" itself is a zero hit adding 0.1 to the neutral score. -/
lemma finalScores_notgood :
    finalScores "not good" = { positiveScore := 0, negativeScore := 2, neutralScore := 11/10 } := by
  have h1 : tokenScores "not good" =
      { positiveScore := 0, negativeScore := 2, neutralScore := 11/10 } := by
    norm_num +decide [tokenScores, processWords, processWord, initState, jsSplitWs, jsSplitAux,
      lowerString, cleanWord, isWordChar, isNegatedBy, intensityOf, ratAbs,
      positiveKeywords, negativeKeywords, neutralKeywords, negationWords, intensifiers]
  have h2 : countChar "not good" '!' = 0 := by decide
  have h3 : countChar "not good" '?' = 0 := by decide
  have h4 : hasContrastWord (lowerString "not good") = false := by decide
  unfold finalScores
  rw [h1, h2, h3]
  norm_num [contrastAdjust, h4, questionAdjust, exclaimAdjust]

/-- Concrete evaluation: "good!!" has one token, a plain positive hit. -/
lemma tokenScores_goodbang :
    tokenScores "good!!" = { positiveScore := 3, negativeScore := 0, neutralScore := 1 } := by
  norm_num +decide [tokenScores, processWords, processWord, initState, jsSplitWs, jsSplitAux,
    lowerString, cleanWord, isWordChar, isNegatedBy, intensityOf, ratAbs,
    positiveKeywords, negativeKeywords, neutralKeywords, negationWords, intensifiers]

/-! Claim theorems -/

/-- Claim C1 (counterexample): a neutral-lexicon hit is NOT accumulated into
the neutral score. The cleaned token "standard" is in the neutral lexicon, yet
its 0.5 word score is positive and therefore routed into positiveScore, and
with the intensifier "very" before it the 0.5 base is doubled to 1 — so the
contribution is neither flat nor added to neutralScore as the claim states. -/
theorem neutral_hit_goes_to_positive_cex :
    cleanWord "standard" ∈ neutralKeywords ∧
    processWord none "standard" initState =
      { positiveScore := 1/2, negativeScore := 0, neutralScore := 1 } ∧
    processWord none "standard" initState ≠
      { initState with neutralScore := initState.neutralScore + 1/10 } ∧
    processWord (some "very") "standard" initState =
      { positiveScore := 1, negativeScore := 0, neutralScore := 1 } := by
  refine ⟨by decide, ?_, ?_, ?_⟩
  · norm_num +decide [processWord, initState, cleanWord, isWordChar, isNegatedBy, intensityOf,
      ratAbs, positiveKeywords, negativeKeywords, neutralKeywords, negationWords, intensifiers]
  · norm_num +decide [processWord, initState, cleanWord, isWordChar, isNegatedBy, intensityOf,
      ratAbs, positiveKeywords, negativeKeywords, neutralKeywords, negationWords, intensifiers]
  · norm_num +decide [processWord, initState, cleanWord, isWordChar, isNegatedBy, intensityOf,
      ratAbs, positiveKeywords, negativeKeywords, neutralKeywords, negationWords, intensifiers]

/-- Claim C1 (amended): a token whose cleaned form is a neutral-lexicon hit
(and not a positive or negative hit, which are checked first) contributes a
base score of 0.5 that is never negated but IS multiplied by the intensity
multiplier; since the result is positive it is accumulated into positiveScore,
leaving neutralScore unchanged. Only zero-hit tokens add 0.1 to neutralScore. -/
theorem neutral_hit_contribution_amended (prev : Option String) (w : String) (s : ScoreState)
    (hp : cleanWord w ∉ positiveKeywords) (hn : cleanWord w ∉ negativeKeywords)
    (hu : cleanWord w ∈ neutralKeywords) :
    processWord prev w s =
      { s with positiveScore := s.positiveScore + 1/2 * intensityOf prev } ∧
    ∀ (prev2 : Option String) (w2 : String) (s2 : ScoreState),
      cleanWord w2 ∉ positiveKeywords → cleanWord w2 ∉ negativeKeywords →
      cleanWord w2 ∉ neutralKeywords →
      processWord prev2 w2 s2 = { s2 with neutralScore := s2.neutralScore + 1/10 } := by
  constructor
  · simp only [processWord]
    rw [if_neg hp, if_neg hn, if_pos hu]
    rw [if_pos (mul_pos (by norm_num : (0:ℚ) < 1/2) (intensity_pos prev))]
  · intro prev2 w2 s2 hp2 hn2 hu2
    simp only [processWord]
    rw [if_neg hp2, if_neg hn2, if_neg hu2, zero_mul]
    norm_num

/-- Witness for the amended C1, at the intensified neutral hit "very standard". -/
theorem neutral_hit_contribution_amended_witness :
    processWord (some "very") "standard" initState =
      { initState with
          positiveScore := initState.positiveScore + 1/2 * intensityOf (some "very") } :=
  (neutral_hit_contribution_amended (some "very") "standard" initState
    (by decide) (by decide) (by decide)).1

/-- Claim C2 (counterexample): on the empty string the scorer does return the
label NEUTRAL, but the confidence is 0.8, not 0.5: the single empty token is a
zero hit, so neutralScore ends at 1.1 and the neutral confidence formula gives
0.5 + (1.1/1.1)·0.3 = 0.8, which the clamp leaves unchanged. -/
theorem empty_input_confidence_cex :
    (analyzeSentiment "").label = Label.NEUTRAL ∧
    (analyzeSentiment "").confidence = 4/5 ∧ ((4:ℚ)/5 ≠ 1/2) := by
  refine ⟨?_, ?_, by norm_num⟩
  · rw [analyzeSentiment_label, finalScores_empty]
    norm_num [labelOf, maxScoreOf, ratAbs, max_def]
  · rw [analyzeSentiment_confidence, finalScores_empty]
    norm_num [rawConfidence, labelOf, maxScoreOf, ratAbs, max_def, totalScoreOf,
      clampConfidence, min_def]

/-- Claim C2 (amended): the scorer on the empty string raises no error and
returns the Classification with label NEUTRAL and confidence 0.8. -/
theorem empty_input_amended :
    analyzeSentiment "" = { label := Label.NEUTRAL, confidence := 4/5 } := by
  unfold analyzeSentiment
  rw [finalScores_empty]
  norm_num [labelOf, maxScoreOf, ratAbs, max_def, rawConfidence, totalScoreOf,
    clampConfidence, min_def]

/-- Claim C3: the resolver implements the three-bucket decision table with
inclusive boundaries: normalized score at most 0.4 gives OFFER_COUPON, the
open interval (0.4, 0.7) gives REQUEST_FEEDBACK, at least 0.7 gives
ASK_REFERRAL; in particular POSITIVE at 0.4 is OFFER_COUPON, POSITIVE at
0.4000001 is REQUEST_FEEDBACK, and NEGATIVE at 0.3 normalizes to 0.7 and is
ASK_REFERRAL. -/
theorem action_decision_table (c : ℚ) (l : Label) :
    (normalizedScoreOf c l ≤ 2/5 →
      (determineBusinessAction c l).actionCode = ActionCode.OFFER_COUPON) ∧
    (2/5 < normalizedScoreOf c l → normalizedScoreOf c l < 7/10 →
      (determineBusinessAction c l).actionCode = ActionCode.REQUEST_FEEDBACK) ∧
    (7/10 ≤ normalizedScoreOf c l →
      (determineBusinessAction c l).actionCode = ActionCode.ASK_REFERRAL) ∧
    (determineBusinessAction (2/5) Label.POSITIVE).actionCode = ActionCode.OFFER_COUPON ∧
    (determineBusinessAction (4000001/10000000) Label.POSITIVE).actionCode =
      ActionCode.REQUEST_FEEDBACK ∧
    normalizedScoreOf (3/10) Label.NEGATIVE = 7/10 ∧
    (determineBusinessAction (3/10) Label.NEGATIVE).actionCode = ActionCode.ASK_REFERRAL := by
  refine ⟨?_, ?_, ?_, ?_, ?_, ?_, ?_⟩
  · intro h
    simp only [determineBusinessAction]
    rw [if_pos h]
  · intro h1 h2
    simp only [determineBusinessAction]
    rw [if_neg (not_le.mpr h1), if_pos h2]
  · intro h
    simp only [determineBusinessAction]
    rw [if_neg (not_le.mpr (by linarith)), if_neg (not_lt.mpr h)]
  · norm_num [determineBusinessAction, normalizedScoreOf]
  · norm_num [determineBusinessAction, normalizedScoreOf]
  · norm_num [normalizedScoreOf]
  · norm_num [determineBusinessAction, normalizedScoreOf]

/-- Witness for C3, exercising all three buckets at concrete inputs. -/
theorem action_decision_table_witness :
    (determineBusinessAction (1/5) Label.POSITIVE).actionCode = ActionCode.OFFER_COUPON ∧
    (determineBusinessAction (1/2) Label.POSITIVE).actionCode = ActionCode.REQUEST_FEEDBACK ∧
    (determineBusinessAction (4/5) Label.POSITIVE).actionCode = ActionCode.ASK_REFERRAL :=
  ⟨(action_decision_table (1/5) Label.POSITIVE).1 (by norm_num [normalizedScoreOf]),
   (action_decision_table (1/2) Label.POSITIVE).2.1 (by norm_num [normalizedScoreOf])
     (by norm_num [normalizedScoreOf]),
   (action_decision_table (4/5) Label.POSITIVE).2.2.1 (by norm_num [normalizedScoreOf])⟩

/-- Claim C4: the final label is chosen by checking the neutral conditions
first: if the maximum of the three scores equals the neutral score, or the
positive and negative scores differ by less than 2, the label is NEUTRAL;
otherwise POSITIVE exactly when the positive score attains the maximum;
otherwise NEGATIVE. -/
theorem label_decision_rule (text : String) :
    ((maxScoreOf (finalScores text) = (finalScores text).neutralScore ∨
        ratAbs ((finalScores text).positiveScore - (finalScores text).negativeScore) < 2) →
      (analyzeSentiment text).label = Label.NEUTRAL) ∧
    (¬(maxScoreOf (finalScores text) = (finalScores text).neutralScore ∨
        ratAbs ((finalScores text).positiveScore - (finalScores text).negativeScore) < 2) →
      (finalScores text).positiveScore = maxScoreOf (finalScores text) →
      (analyzeSentiment text).label = Label.POSITIVE) ∧
    (¬(maxScoreOf (finalScores text) = (finalScores text).neutralScore ∨
        ratAbs ((finalScores text).positiveScore - (finalScores text).negativeScore) < 2) →
      (finalScores text).positiveScore ≠ maxScoreOf (finalScores text) →
      (analyzeSentiment text).label = Label.NEGATIVE) := by
  rw [analyzeSentiment_label]
  unfold labelOf
  refine ⟨fun h => ?_, fun h hp => ?_, fun h hp => ?_⟩
  · rw [if_pos h]
  · rw [if_neg h, if_pos hp]
  · rw [if_neg h, if_neg hp]

/-- Witness for C4: on the empty string the maximum equals the neutral score,
so the neutral branch fires. -/
theorem label_decision_rule_witness : (analyzeSentiment "").label = Label.NEUTRAL :=
  (label_decision_rule "").1 (Or.inl (by
    rw [finalScores_empty]
    norm_num [maxScoreOf, max_def]))

/-- Claim C5: for every input text the returned confidence lies in the closed
interval from 0.5 to 0.95. -/
theorem confidence_within_bounds (text : String) :
    1/2 ≤ (analyzeSentiment text).confidence ∧ (analyzeSentiment text).confidence ≤ 19/20 := by
  rw [analyzeSentiment_confidence]
  exact clampConfidence_mem _

/-- Claim C6: for confidence values in the unit interval, the resolver ignores
the confidence of a NEUTRAL classification: the normalized score is 0.5, the
action is REQUEST_FEEDBACK, and any two confidence values give the same
decision. -/
theorem neutral_ignores_confidence (c c2 : ℚ) (h0 : 0 ≤ c) (h1 : c ≤ 1)
    (h2 : 0 ≤ c2) (h3 : c2 ≤ 1) :
    normalizedScoreOf c Label.NEUTRAL = 1/2 ∧
    (determineBusinessAction c Label.NEUTRAL).actionCode = ActionCode.REQUEST_FEEDBACK ∧
    determineBusinessAction c Label.NEUTRAL = determineBusinessAction c2 Label.NEUTRAL := by
  refine ⟨rfl, ?_, ?_⟩
  · norm_num [determineBusinessAction, normalizedScoreOf]
  · norm_num [determineBusinessAction, normalizedScoreOf]

/-- Witness for C6 at the confidence values 1 and 0. -/
theorem neutral_ignores_confidence_witness :
    normalizedScoreOf 1 Label.NEUTRAL = 1/2 ∧
    (determineBusinessAction 1 Label.NEUTRAL).actionCode = ActionCode.REQUEST_FEEDBACK ∧
    determineBusinessAction 1 Label.NEUTRAL = determineBusinessAction 0 Label.NEUTRAL :=
  neutral_ignores_confidence 1 0 (by norm_num) (by norm_num) (by norm_num) (by norm_num)

/-- Claim C7: in the scorer, the exclamation bonus applies only when the text
contains more than one bang; it then adds exactly 2 to the strictly leading
score (at most once, however many bangs occur), and when the positive and
negative scores are equal neither is boosted. -/
theorem exclamation_bonus_rule (text : String) :
    (countChar text '!' ≤ 1 →
      exclaimAdjust (countChar text '!') (tokenScores text) = tokenScores text) ∧
    (1 < countChar text '!' →
      ((tokenScores text).negativeScore < (tokenScores text).positiveScore →
        exclaimAdjust (countChar text '!') (tokenScores text) =
          { tokenScores text with
              positiveScore := (tokenScores text).positiveScore + 2 }) ∧
      ((tokenScores text).positiveScore < (tokenScores text).negativeScore →
        exclaimAdjust (countChar text '!') (tokenScores text) =
          { tokenScores text with
              negativeScore := (tokenScores text).negativeScore + 2 }) ∧
      ((tokenScores text).positiveScore = (tokenScores text).negativeScore →
        exclaimAdjust (countChar text '!') (tokenScores text) = tokenScores text)) := by
  obtain ⟨h1, h2, h3, h4⟩ := exclaimAdjust_cases (countChar text '!') (tokenScores text)
  exact ⟨h1, fun hk => ⟨h2 hk, h3 hk, h4 hk⟩⟩

/-- Witness for C7 on "good!!": two bangs and a strictly leading positive
score, which is boosted by 2. -/
theorem exclamation_bonus_rule_witness :
    1 < countChar "good!!" '!' ∧
    (tokenScores "good!!").negativeScore < (tokenScores "good!!").positiveScore ∧
    exclaimAdjust (countChar "good!!" '!') (tokenScores "good!!") =
      { tokenScores "good!!" with
          positiveScore := (tokenScores "good!!").positiveScore + 2 } := by
  have hc : 1 < countChar "good!!" '!' := by decide
  have hlt : (tokenScores "good!!").negativeScore < (tokenScores "good!!").positiveScore := by
    rw [tokenScores_goodbang]
    norm_num
  exact ⟨hc, hlt, ((exclamation_bonus_rule "good!!").2 hc).1 hlt⟩

/-- Claim C8: on "not good" the negation flips the positive hit "good" into a
negative contribution of 2, and the overall label is NEGATIVE, not POSITIVE. -/
theorem not_good_is_negative :
    processWord (some "not") "good"
        { positiveScore := 0, negativeScore := 0, neutralScore := 11/10 } =
      { positiveScore := 0, negativeScore := 2, neutralScore := 11/10 } ∧
    (analyzeSentiment "not good").label = Label.NEGATIVE ∧
    Label.NEGATIVE ≠ Label.POSITIVE := by
  refine ⟨?_, ?_, by decide⟩
  · norm_num +decide [processWord, cleanWord, isWordChar, isNegatedBy, intensityOf, ratAbs,
      positiveKeywords, negativeKeywords, neutralKeywords, negationWords, intensifiers]
  · rw [analyzeSentiment_label, finalScores_notgood]
    norm_num [labelOf, maxScoreOf, ratAbs, max_def]

/-- Claim C9: for every input text the scorer invariant holds at the point
where confidence is computed: the neutral score is at least its baseline 1,
the positive and negative scores are nonnegative, and the total is at least 1
and in particular nonzero, so the confidence divisions never divide by zero. -/
theorem scores_nonneg_total_ge_one (text : String) :
    0 ≤ (finalScores text).positiveScore ∧ 0 ≤ (finalScores text).negativeScore ∧
    1 ≤ (finalScores text).neutralScore ∧ 1 ≤ totalScoreOf (finalScores text) ∧
    totalScoreOf (finalScores text) ≠ 0 := by
  obtain ⟨hp, hn, hu⟩ := finalScores_inv text
  refine ⟨hp, hn, hu, ?_, ?_⟩
  · unfold totalScoreOf; linarith
  · exact ne_of_gt (by unfold totalScoreOf; linarith)

/-- Claim C10: for every input text the pre-clamp confidence already lies
strictly between 0.5 and 0.9, so the clamp to [0.5, 0.95] is a no-op and
neither bound is ever attained. -/
theorem preclamp_confidence_strict (text : String) :
    1/2 < rawConfidence (finalScores text) ∧ rawConfidence (finalScores text) < 9/10 ∧
    (analyzeSentiment text).confidence = rawConfidence (finalScores text) ∧
    (analyzeSentiment text).confidence ≠ 1/2 ∧ (analyzeSentiment text).confidence ≠ 19/20 := by
  obtain ⟨h1, h2⟩ := rawConfidence_bounds (finalScores text) (finalScores_inv text)
  have heq : (analyzeSentiment text).confidence = rawConfidence (finalScores text) := by
    rw [analyzeSentiment_confidence]
    exact clampConfidence_eq_self _ h1.le (by linarith)
  refine ⟨h1, h2, heq, ?_, ?_⟩
  · rw [heq]; exact ne_of_gt h1
  · rw [heq]; exact ne_of_lt (by linarith)
